import Mathlib

/-!
Shallow embedding of `run_local_blast_skeleton.py`, a Python 2 script that
runs (PSI-)BLAST for a list of UniProt identifiers, parses the tabular
output into a dictionary keyed by (query, subject) pairs, writes an
all-against-all report and plots a histogram of e-values.

Modelling conventions:
* Python byte strings are Lean `String`s; character-level work happens on
  `List Char` (via `String.data`) so that everything kernel-reduces.
* Python `float` is modelled by exact rationals `ℚ`.  The script only ever
  parses decimal literals, adds, divides by 1000 and compares, so the
  binary rounding of IEEE doubles is abstracted away; every concrete value
  used in the development is exact in both semantics.  Values produced by
  arithmetic are built with `Rat.divInt` (plus bridge lemmas to `+` and
  `/`) so that they evaluate by `decide`.
* The external tool and the file system are an oracle `String → String`
  mapping a shell command to the text the subprocess produces; file writes
  are collected as the list of strings passed to `f.write`, in order.
* Exceptions are `Except String`; an uncaught Python exception is
  `Except.error`.
-/

/-- Characters Python's `str.split()` (no separator) treats as whitespace. -/
def isPyWs (c : Char) : Bool :=
  c = ' ' ∨ c = '\t' ∨ c = '\n' ∨ c = '\r' ∨ c = '\x0b' ∨ c = '\x0c'

/-- Python `s.split()` on character lists: split on runs of whitespace,
dropping empty fields. -/
def splitWs : List Char → List (List Char)
  | [] => []
  | [c] => if isPyWs c then [] else [[c]]
  | c :: d :: rest =>
    let r := splitWs (d :: rest)
    if isPyWs c then r
    else if isPyWs d then [c] :: r
    else
      match r with
      | [] => [[c]]
      | h :: t => (c :: h) :: t

/-- Python `s.split(sep)` for a one-character separator `sep`: keeps empty
fields, so `"a|".split("|") = ["a", ""]` and `"".split("|") = [""]`. -/
def splitOnChar (sep : Char) : List Char → List (List Char)
  | [] => [[]]
  | c :: rest =>
    match splitOnChar sep rest with
    | [] => [[c]]
    | h :: t => if c = sep then [] :: h :: t else (c :: h) :: t

/-- Numeric value of a list of decimal digit characters. -/
def digitsToNat (ds : List Char) : ℕ :=
  ds.foldl (fun a c => 10 * a + (c.toNat - 48)) 0

/-- Exact value of a decimal floating literal: `sign` applied to
`digits` scaled by `10 ^ (ex - fracLen)`.  Built with `Rat.divInt` over
natural-number powers so that it kernel-reduces. -/
def decValue (sign : ℤ) (digits : ℕ) (fracLen : ℕ) (ex : ℤ) : ℚ :=
  let e : ℤ := ex - (fracLen : ℤ)
  if 0 ≤ e then Rat.divInt (sign * (digits : ℤ) * ((10 ^ e.toNat : ℕ) : ℤ)) 1
  else Rat.divInt (sign * (digits : ℤ)) (((10 ^ (-e).toNat : ℕ) : ℤ))

/-- Python `float(s)` on an unsigned body: `digits [. digits] [(e|E) [sign]
digits]`, with at least one mantissa digit and nothing left over.  Returns
`none` where CPython raises `ValueError`.  (The special literals
`inf`/`infinity`/`nan`, which are not representable in `ℚ` and never
produced by the tool, are also mapped to `none`.) -/
def pyFloatCore (cs : List Char) : Option ℚ :=
  let ip := cs.takeWhile Char.isDigit
  let r1 := cs.dropWhile Char.isDigit
  let fp := match r1 with
    | '.' :: rest => rest.takeWhile Char.isDigit
    | _ => []
  let r2 := match r1 with
    | '.' :: rest => rest.dropWhile Char.isDigit
    | _ => r1
  if ip.isEmpty && fp.isEmpty then none
  else
    match r2 with
    | [] => some (decValue 1 (digitsToNat (ip ++ fp)) fp.length 0)
    | e :: rest =>
      if e = 'e' ∨ e = 'E' then
        let esign : ℤ := match rest with
          | '-' :: _ => -1
          | _ => 1
        let rest2 := match rest with
          | '+' :: t => t
          | '-' :: t => t
          | t => t
        let ed := rest2.takeWhile Char.isDigit
        let rest3 := rest2.dropWhile Char.isDigit
        if ed.isEmpty || !rest3.isEmpty then none
        else some (decValue 1 (digitsToNat (ip ++ fp)) fp.length
          (esign * (digitsToNat ed : ℤ)))
      else none

/-- Python `float(s)` on a character list: strip surrounding whitespace,
take an optional sign, then parse the body. -/
def pyFloatL (cs : List Char) : Option ℚ :=
  let cs2 := ((cs.dropWhile isPyWs).reverse.dropWhile isPyWs).reverse
  match cs2 with
  | '+' :: rest => pyFloatCore rest
  | '-' :: rest => (pyFloatCore rest).map (fun q => -q)
  | rest => pyFloatCore rest

/-- Python `float(s)` on a `String`. -/
def pyFloat (s : String) : Option ℚ :=
  pyFloatL s.data

/-- Number of decimal digits of `n` (for `n ≥ 1` this is `⌊log10 n⌋ + 1`). -/
def numDigits (n : ℕ) : ℕ :=
  (Nat.repr n).length

/-- Decide whether `a / b ≥ 10 ^ e` for naturals `a, b ≥ 1` and an integer
exponent `e`, by cross-multiplying. -/
def gePow10 (a b : ℕ) (e : ℤ) : Bool :=
  if 0 ≤ e then b * 10 ^ e.toNat ≤ a else b ≤ a * 10 ^ (-e).toNat

/-- Floor of `log10 (a / b)` for `a, b ≥ 1`.  The digit counts give a
first guess `e0` with the true floor in `{e0 - 1, e0}`; one comparison
settles it. -/
def qFloorLog10 (a b : ℕ) : ℤ :=
  let e0 : ℤ := (numDigits a : ℤ) - (numDigits b : ℤ)
  if gePow10 a b e0 then e0 else e0 - 1

/-- Drop trailing `'0'` characters. -/
def stripZeros (ds : List Char) : List Char :=
  (ds.reverse.dropWhile (fun c => c = '0')).reverse

/-- Python 2 `str` of a positive float `a / b` (`a, b ≥ 1`): the `%.12g`
format (12 significant digits, scientific notation outside `1e-4 ≤ x <
1e12`), with `.0` appended to a bare integer rendering, as CPython 2 does.
Ties in the 12th digit round up here; CPython rounds them to even, but no
value in this development hits a tie. -/
def pyStrPos (a b : ℕ) : String :=
  let e := qFloorLog10 a b
  let k : ℤ := 11 - e
  let num := if 0 ≤ k then a * 10 ^ k.toNat else a
  let den := if 0 ≤ k then b else b * 10 ^ (-k).toNat
  let m := (2 * num + den) / (2 * den)
  let m2 := if m = 10 ^ 12 then 10 ^ 11 else m
  let e2 := if m = 10 ^ 12 then e + 1 else e
  let ds := stripZeros (Nat.repr m2).data
  if -4 ≤ e2 ∧ e2 < 12 then
    if 0 ≤ e2 then
      let ip := e2.toNat + 1
      if ds.length ≤ ip then
        String.mk (ds ++ List.replicate (ip - ds.length) '0') ++ ".0"
      else
        String.mk (ds.take ip) ++ "." ++ String.mk (ds.drop ip)
    else
      "0." ++ String.mk (List.replicate (-e2 - 1).toNat '0') ++ String.mk ds
  else
    let mant :=
      if ds.length = 1 then String.mk ds
      else String.mk (ds.take 1) ++ "." ++ String.mk (ds.drop 1)
    let ea := (if e2 < 0 then -e2 else e2).toNat
    let es := Nat.repr ea
    mant ++ "e" ++ (if e2 < 0 then "-" else "+") ++
      (if ea < 10 then "0" ++ es else es)

/-- Python 2 `str` of a float value. -/
def pyStr (q : ℚ) : String :=
  if q = 0 then "0.0"
  else if q < 0 then "-" ++ pyStrPos q.num.natAbs q.den
  else pyStrPos q.num.natAbs q.den

example : pyStr (Rat.divInt 3 10) = "0.3" := by decide
example : pyStr (Rat.divInt 1 100000) = "1e-05" := by decide
example : pyStr (Rat.divInt 5 2) = "2.5" := by decide
example : pyStr (Rat.divInt 10 1) = "10.0" := by decide
example : pyStr 0 = "0.0" := by decide
example : pyFloat "0.30" = some (Rat.divInt 3 10) := by decide
example : pyFloat "1e-05" = some (Rat.divInt 1 100000) := by decide
example : pyFloat "-2.5e+1" = some (Rat.divInt (-25) 1) := by decide
example : pyFloat "abc" = none := by decide
example : pyFloat "1e" = none := by decide
example : pyFloat " 2.0 " = some (Rat.divInt 2 1) := by decide

/-- Decidable equality for `Except`, used to evaluate concrete runs of the
embedded functions inside `decide`. -/
instance {ε α : Type} [DecidableEq ε] [DecidableEq α] : DecidableEq (Except ε α)
  | Except.error a, Except.error b =>
    if h : a = b then isTrue (by rw [h])
    else isFalse (by intro hh; cases hh; exact h rfl)
  | Except.error _, Except.ok _ => isFalse (by intro h; cases h)
  | Except.ok _, Except.error _ => isFalse (by intro h; cases h)
  | Except.ok a, Except.ok b =>
    if h : a = b then isTrue (by rw [h])
    else isFalse (by intro hh; cases hh; exact h rfl)

/-- Insertion-ordered dictionary from (query, subject) pairs to e-values,
mirroring a Python dict: assignment overwrites in place or appends. -/
abbrev BlastDict : Type := List ((String × String) × ℚ)

/-- Python `d[k] = v`. -/
def dictInsert : BlastDict → (String × String) → ℚ → BlastDict
  | [], k, v => [(k, v)]
  | (k2, v2) :: rest, k, v =>
    if k2 = k then (k, v) :: rest else (k2, v2) :: dictInsert rest k v

/-- Python `d[k]` / `k in d` combined: `some` iff the key is present. -/
def dictLookup : BlastDict → (String × String) → Option ℚ
  | [], _ => none
  | (k2, v2) :: rest, k => if k2 = k then some v2 else dictLookup rest k

/-- Python `d.values()` in dictionary order. -/
def dictValues (d : BlastDict) : List ℚ :=
  d.map (fun e => e.2)

/-- Warning printed for an unparseable line (`parse_blast_result`, line 87). -/
def warnMsg (line : List Char) : String :=
  "\tCould not parse (psi-)blast response line:\n\t" ++ String.mk line

/-- Field extraction of `parse_blast_result` (lines 72-75):
`splitted_line = line.split()`, `query = splitted_line[0].split("|")[1]`,
`subject = splitted_line[1].split("|")[1]`, `e_value = splitted_line[2]`.
`none` exactly when one of the five indexings raises `IndexError`; they
are all caught by the same handler, so which one fires is irrelevant. -/
def extractFields (line : List Char) : Option (List Char × List Char × List Char) :=
  match splitWs line with
  | f0 :: f1 :: f2 :: _ =>
    match splitOnChar '|' f0, splitOnChar '|' f1 with
    | _ :: q :: _, _ :: s :: _ => some (q, s, f2)
    | _, _ => none
  | _ => none

/-- Loop body of `parse_blast_result` (lines 70-87).  The state is the
dictionary plus the warnings printed so far; `Except.error` is the
uncaught `ValueError` from `float(e_value)`. -/
def parseBlastLine (st : BlastDict × List String) (line : List Char) :
    Except String (BlastDict × List String) :=
  match line with
  | [] => Except.ok st
  | c :: _ =>
    if c = '#' ∨ c = '[' then Except.ok st
    else
      match extractFields line with
      | none =>
        Except.ok (st.1,
          if List.isSuffixOf ("CONVERGED!".data) line then st.2
          else st.2 ++ [warnMsg line])
      | some (q, s, f2) =>
        match pyFloatL f2 with
        | none =>
          Except.error ("could not convert string to float: " ++ String.mk f2)
        | some v => Except.ok (dictInsert st.1 (String.mk q, String.mk s) v, st.2)

/-- Fold of `parseBlastLine` over the lines, propagating exceptions. -/
def parseLines : List (List Char) → (BlastDict × List String) →
    Except String (BlastDict × List String)
  | [], st => Except.ok st
  | l :: ls, st =>
    match parseBlastLine st l with
    | Except.error e => Except.error e
    | Except.ok st2 => parseLines ls st2

/-- `parse_blast_result(blast_result, blast_dict)` (lines 62-89): split the
output on newlines and process each line; returns the updated dictionary
and the warnings printed. -/
def parse_blast_result (blast_result : String) (blast_dict : BlastDict) :
    Except String (BlastDict × List String) :=
  parseLines (splitOnChar '\n' blast_result.data) (blast_dict, [])

/-- Line written by `write_output` for one ordered pair (lines 106-110). -/
def writeLine (d : BlastDict) (p : String × String) : String :=
  let pair_str := p.1 ++ "\t" ++ p.2
  match dictLookup d p with
  | some v => pair_str ++ "\t" ++ pyStr v ++ "\n"
  | none => pair_str ++ "\t" ++ "NA\n"

/-- `itertools.product(xs, ys)` in row-major order. -/
def pyProduct (xs ys : List String) : List (String × String) :=
  xs.flatMap (fun x => ys.map (fun y => (x, y)))

/-- `write_output(uniprot_ids, output_filename, blast_dict)` (lines 92-110):
the strings passed to `f.write`, in order.  `len(pair) == len(set(pair))`
on a 2-tuple holds exactly when the two components differ. -/
def write_output (uniprot_ids : List String) (blast_dict : BlastDict) :
    List String :=
  (pyProduct uniprot_ids uniprot_ids).foldl
    (fun acc p => if p.1 = p.2 then acc else acc ++ [writeLine blast_dict p]) []

/-- Reading of C1 as stated: one line for every ordered pair of the cross
product, including pairs with equal components. -/
def write_output_spec_all (uniprot_ids : List String) (blast_dict : BlastDict) :
    List String :=
  (pyProduct uniprot_ids uniprot_ids).map (writeLine blast_dict)

/-- Python `x / 1000.0` on a float value, built with `Rat.divInt` so it
kernel-reduces; equal to `x / 1000` (lemma `pyDiv1000_eq`). -/
def pyDiv1000 (x : ℚ) : ℚ :=
  Rat.divInt x.num ((x.den : ℤ) * 1000)

/-- Python `x + y` on float values, built with `Rat.divInt` so it
kernel-reduces; equal to `x + y` (lemma `pyAdd_eq`). -/
def pyAdd (x y : ℚ) : ℚ :=
  Rat.divInt (x.num * (y.den : ℤ) + y.num * (x.den : ℤ)) ((x.den : ℤ) * (y.den : ℤ))

/-- `sorted(blast_dict.values())` (line 122): a stable ascending sort. -/
def sortedEVals (d : BlastDict) : List ℚ :=
  List.insertionSort (· ≤ ·) (dictValues d)

/-- `numpy.nonzero(sorted_e_val)[0]` (line 123): the indices of the
non-zero entries, in order. -/
def nonzeroIndices (l : List ℚ) : List ℕ :=
  (List.range l.length).filter (fun i => decide (l.getD i 0 ≠ 0))

/-- `pseudo_count = sorted_e_val[nonzero_indices[0]] / 1000.0` (line 124);
`none` is the uncaught `IndexError` when no entry is non-zero. -/
def pseudoCount (d : BlastDict) : Option ℚ :=
  (nonzeroIndices (sortedEVals d)).head?.map
    (fun i => pyDiv1000 ((sortedEVals d).getD i 0))

/-- `plot_evalue_distribution(blast_dict, png_filename, evalue)` (lines
113-149), with `math.log1` / `0(...)` on lines 126-127 read as the
`math.log10` the docstring describes (as written those two physical lines
are a Python syntax error; see the C5 theorem).  Returns the list handed
to `pylab.hist` before the base-10 log is applied (the log lives in ℝ and
is stated at the property level), paired with the count of e-values below
the threshold (lines 141-144, computed into a local and discarded). -/
def plot_evalue_distribution (d : BlastDict) (evalue : ℚ := 100000) :
    Option (List ℚ × ℕ) :=
  (pseudoCount d).map
    (fun pc =>
      ((dictValues d).map (fun x => pyAdd x pc),
        List.countP (fun x => decide (x < evalue)) (sortedEVals d)))

/-- `clean_uniprot(uniprot)` (lines 151-160): drop one trailing newline,
then one trailing space. -/
def cleanUniprot (s : String) : String :=
  let s1 := if List.isSuffixOf ("\n".data) s.data then String.mk s.data.dropLast else s
  if List.isSuffixOf (" ".data) s1.data then String.mk s1.data.dropLast else s1

/-- Value of the `evalue` argument: argparse delivers a `str` when `-eval`
is passed on the command line and the `int` literal `10` (the argparse
default, line 202, which is also the default of `blast` itself, line 15)
when it is omitted. -/
inductive PyVal : Type
  | str (s : String)
  | int (n : ℤ)
deriving DecidableEq

/-- Message of the Python 2 `TypeError` raised by `"..." + evalue` when
`evalue` is an `int` (line 37 resp. 50). -/
def concatTypeError : String :=
  "TypeError: cannot concatenate str and int objects"

/-- Command string built by `blast` (lines 37 and 50) once `query` has had
one trailing newline and one trailing space stripped (lines 25-28), for a
string-valued `evalue`. -/
def blastCmdStr (db query query_folder : String) (psiblast : Bool) (ev : String) :
    String :=
  let q1 := if List.isSuffixOf ("\n".data) query.data then String.mk query.data.dropLast else query
  let q2 := if List.isSuffixOf (" ".data) q1.data then String.mk q1.data.dropLast else q1
  if !psiblast then
    "blastp -query=" ++ query_folder ++ q2 ++ " -db=" ++ db ++
      " -outfmt=\"6 qacc sacc evalue\" -evalue=" ++ ev
  else
    "psiblast -query=" ++ query_folder ++ q2 ++ " -db=" ++ db ++
      " -num_iterations=3" ++ " -outfmt=\"6 qacc sacc evalue\" -evalue=" ++ ev ++
      " -comp_based_stats=0"

/-- `blast(db, query, query_folder, blast_path, psiblast, evalue)` (lines
15-59).  The oracle stands for `subprocess.Popen(...).stdout.read()`.  On
success the result carries the list of shell commands actually started
(exactly one) together with the captured output; when `evalue` is an
`int`, the `str + int` concatenation raises before any subprocess exists,
so the error carries no started command.  `blast_path` is accepted, as in
the source, and never read. -/
def blast (oracle : String → String) (db query : String)
    (query_folder : String := "./queries/") (blast_path : String := "")
    (psiblast : Bool := false) (evalue : PyVal := PyVal.int 10) :
    Except String (List String × String) :=
  match evalue with
  | PyVal.int _ => Except.error concatTypeError
  | PyVal.str ev =>
    Except.ok ([blastCmdStr db query query_folder psiblast ev],
      oracle (blastCmdStr db query query_folder psiblast ev))

/-- Observable state threaded through the loop of `main` (lines 170-187):
shell commands started so far, `uniprot_ids`, `blast_dict`, and the parse
warnings printed. -/
structure MainState : Type where
  trace : List String
  ids : List String
  dict : BlastDict
  warnings : List String
deriving DecidableEq

/-- Loop of `main` (lines 171-187): for each line of the id file, run
`blast(db, line + ".fasta", query_folder, output_filename, psiblast,
evalue=evalue)` (note `output_filename` lands in `blast_path`), append the
cleaned id, parse the result into the dictionary. -/
def mainLoop (oracle : String → String) (db query_folder output_filename : String)
    (psiblast : Bool) (evalue : PyVal) :
    List String → MainState → Except String MainState
  | [], st => Except.ok st
  | line :: rest, st =>
    match blast oracle db (cleanUniprot line ++ ".fasta") query_folder
        output_filename psiblast evalue with
    | Except.error e => Except.error e
    | Except.ok (tr, result) =>
      match parse_blast_result result st.dict with
      | Except.error e => Except.error e
      | Except.ok (d2, ws) =>
        mainLoop oracle db query_folder output_filename psiblast evalue rest
          ⟨st.trace ++ tr, st.ids ++ [cleanUniprot line], d2, st.warnings ++ ws⟩

/-- `main(uniprot_id_list, query_folder, db, psiblast, output_filename,
output_png, evalue)` (lines 161-191): run the loop over the lines of the
id file, then `write_output` and `plot_evalue_distribution` (the latter
with its default threshold 100000 — `main` never forwards `evalue` to it).
On success, returns the final loop state, the strings written to the
output file, and the plot data.  (When the plot raises its `IndexError`
the file has in fact already been written; only the success observables
are modelled.) -/
def mainRun (oracle : String → String) (uniprot_lines : List String)
    (query_folder db : String) (psiblast : Bool) (output_filename : String)
    (evalue : PyVal) :
    Except String (MainState × List String × (List ℚ × ℕ)) :=
  match mainLoop oracle db query_folder output_filename psiblast evalue
      uniprot_lines ⟨[], [], [], []⟩ with
  | Except.error e => Except.error e
  | Except.ok st =>
    match plot_evalue_distribution st.dict with
    | none => Except.error "IndexError: index 0 is out of bounds for axis 0 with size 0"
    | some pr => Except.ok (st, write_output st.ids st.dict, pr)

example : parse_blast_result "sp|P1|X\tsp|P2|Y\t1e-05" [] =
    Except.ok ([(("P1", "P2"), Rat.divInt 1 100000)], []) := by decide
example : parse_blast_result "junk" [] =
    Except.ok ([], [warnMsg "junk".data]) := by decide
example : parse_blast_result "sp|P1|X sp|P2|Y abc" [] =
    Except.error "could not convert string to float: abc" := by decide
example : write_output ["A", "B"] [(("A", "B"), Rat.divInt 3 10)] =
    ["A\tB\t0.3\n", "B\tA\tNA\n"] := by decide
example : plot_evalue_distribution [(("A", "B"), Rat.divInt 1 100)] =
    some ([Rat.divInt 1001 100000], 1) := by decide

/-- Bridge: the kernel-reducible `pyDiv1000` is division by 1000. -/
lemma pyDiv1000_eq (x : ℚ) : pyDiv1000 x = x / 1000 := by
  have hden : ((x.den : ℚ)) ≠ 0 := by
    exact_mod_cast (Nat.cast_ne_zero).mpr x.den_nz
  rw [pyDiv1000, Rat.divInt_eq_div]
  push_cast
  rw [div_mul_eq_div_div, Rat.num_div_den]

/-- Bridge: the kernel-reducible `pyAdd` is addition. -/
lemma pyAdd_eq (x y : ℚ) : pyAdd x y = x + y := by
  have hx : ((x.den : ℚ)) ≠ 0 := by
    exact_mod_cast (Nat.cast_ne_zero).mpr x.den_nz
  have hy : ((y.den : ℚ)) ≠ 0 := by
    exact_mod_cast (Nat.cast_ne_zero).mpr y.den_nz
  rw [pyAdd, Rat.divInt_eq_div]
  push_cast
  conv_rhs => rw [← Rat.num_div_den x, ← Rat.num_div_den y]
  rw [div_add_div _ _ hx hy]
  ring_nf

/-- Unrolling the write loop of `write_output`: the writes are one line per
ordered pair with distinct components, in cross-product order. -/
lemma writeOutput_eq (uniprot_ids : List String) (blast_dict : BlastDict) :
    write_output uniprot_ids blast_dict
      = ((pyProduct uniprot_ids uniprot_ids).filter
          (fun p => decide (p.1 ≠ p.2))).map (writeLine blast_dict) := by
  show (pyProduct uniprot_ids uniprot_ids).foldl _ [] = _
  generalize pyProduct uniprot_ids uniprot_ids = l
  suffices h : ∀ acc : List String,
      l.foldl (fun acc p => if p.1 = p.2 then acc else acc ++ [writeLine blast_dict p]) acc
        = acc ++ (l.filter (fun p => decide (p.1 ≠ p.2))).map (writeLine blast_dict) by
    simpa using h []
  induction l with
  | nil => intro acc; simp
  | cons p t ih =>
    intro acc
    by_cases hp : p.1 = p.2
    · simp [List.foldl_cons, hp, ih]
    · simp [List.foldl_cons, hp, ih]

/-- C1 (amended): `write_output` writes exactly one tab-separated line for
every ordered pair of the cross product whose two components differ — the
stored e-value rendered by `str` when the pair is a key, `NA` otherwise —
and no line at all for the pairs with equal components. -/
theorem write_output_one_line_per_distinct_pair
    (uniprot_ids : List String) (blast_dict : BlastDict) :
    write_output uniprot_ids blast_dict
      = ((pyProduct uniprot_ids uniprot_ids).filter
          (fun p => decide (p.1 ≠ p.2))).map (writeLine blast_dict) :=
  writeOutput_eq uniprot_ids blast_dict

/-- C1 (counterexample to the claim as stated): with the single identifier
`"A"`, the cross product contains the pair `("A", "A")`, yet `write_output`
writes nothing, while the claimed behaviour would write one `NA` line. -/
theorem write_output_diagonal_pair_cex :
    write_output ["A"] [] = [] ∧
    ("A", "A") ∈ pyProduct ["A"] ["A"] ∧
    write_output_spec_all ["A"] [] = ["A\tA\tNA\n"] := by decide

/-- C8 (amended): the score text written for a stored pair is Python's
`str` rendering of the float parsed from the tool's e-value field, not the
field text itself: the written line is `id1 ⟨tab⟩ id2 ⟨tab⟩ str(value)`. -/
theorem write_output_score_text_is_str_of_float
    (uniprot_ids : List String) (blast_dict : BlastDict) (q s : String) (v : ℚ)
    (hmem : (q, s) ∈ pyProduct uniprot_ids uniprot_ids) (hne : q ≠ s)
    (hv : dictLookup blast_dict (q, s) = some v) :
    (q ++ "\t" ++ s ++ "\t" ++ pyStr v ++ "\n") ∈ write_output uniprot_ids blast_dict := by
  rw [writeOutput_eq]
  refine List.mem_map.mpr ⟨(q, s), List.mem_filter.mpr ⟨hmem, by simpa using hne⟩, ?_⟩
  simp [writeLine, hv]

/-- Witness for `write_output_score_text_is_str_of_float` at a concrete
dictionary and identifier list. -/
theorem write_output_score_text_witness :
    dictLookup [(("A", "B"), Rat.divInt 3 10)] ("A", "B") = some (Rat.divInt 3 10) ∧
    ("A" ++ "\t" ++ "B" ++ "\t" ++ pyStr (Rat.divInt 3 10) ++ "\n")
      ∈ write_output ["A", "B"] [(("A", "B"), Rat.divInt 3 10)] :=
  ⟨by decide,
    write_output_score_text_is_str_of_float ["A", "B"] [(("A", "B"), Rat.divInt 3 10)]
      "A" "B" (Rat.divInt 3 10) (by decide) (by decide) (by decide)⟩

/-- C8 (counterexample to "consumed verbatim"): the e-value field `0.30`
is parsed to the float `3/10` and written back as `0.3`, so the text that
reaches the output file differs from the tool's field. -/
theorem evalue_round_trip_not_verbatim_cex :
    parse_blast_result "sp|A|x\tsp|B|y\t0.30" []
      = Except.ok ([(("A", "B"), Rat.divInt 3 10)], []) ∧
    write_output ["A", "B"] [(("A", "B"), Rat.divInt 3 10)]
      = ["A\tB\t0.3\n", "B\tA\tNA\n"] ∧
    ("A\tB\t0.3\n" : String) ≠ "A\tB\t0.30\n" := by decide

/-- C9: with an `int`-valued `evalue` — in particular the literal `10`
that is both `blast`'s own default and the argparse default of `-eval` —
the `"... -evalue=" + evalue` concatenation raises a `TypeError` before
any subprocess is started: `blast` yields the error and an empty trace of
started commands.  The second conjunct is the call with every default
argument in place. -/
theorem blast_int_evalue_type_error (oracle : String → String)
    (db query query_folder blast_path : String) (psiblast : Bool) (n : ℤ) :
    blast oracle db query query_folder blast_path psiblast (PyVal.int n)
        = Except.error concatTypeError ∧
    blast oracle db query = Except.error concatTypeError :=
  ⟨rfl, rfl⟩

/-- C10: the command `blast` constructs and the result it returns do not
depend on its `blast_path` parameter (which `main` fills with the output
filename): two calls differing only in `blast_path` agree exactly. -/
theorem blast_independent_of_blast_path (oracle : String → String)
    (db query query_folder bp1 bp2 : String) (psiblast : Bool) (evalue : PyVal) :
    blast oracle db query query_folder bp1 psiblast evalue
      = blast oracle db query query_folder bp2 psiblast evalue :=
  rfl

/-- C2: a line of the alignment output that is non-empty, starts with
neither `#` nor `[`, splits into at least three whitespace-separated
fields whose first two fields each have at least two pipe-delimited parts,
and whose third field parses as a float, makes `parse_blast_result` store
`(query, subject) ↦ float(e_value)` with `query`/`subject` the second
pipe-part of the first/second field.  Stated on a one-line input. -/
theorem parse_blast_result_stores_pair (blast_result : String)
    (c : Char) (cs : List Char) (blast_dict : BlastDict)
    (f0 f1 f2 : List Char) (fs : List (List Char))
    (p0 p1 q s : List Char) (qt st : List (List Char)) (v : ℚ)
    (hsplit : splitOnChar '\n' blast_result.data = [c :: cs])
    (hc1 : c ≠ '#') (hc2 : c ≠ '[')
    (hfields : splitWs (c :: cs) = f0 :: f1 :: f2 :: fs)
    (hq : splitOnChar '|' f0 = p0 :: q :: qt)
    (hs : splitOnChar '|' f1 = p1 :: s :: st)
    (hv : pyFloatL f2 = some v) :
    parse_blast_result blast_result blast_dict
      = Except.ok (dictInsert blast_dict (String.mk q, String.mk s) v, []) := by
  rw [parse_blast_result, hsplit]
  simp [parseLines, parseBlastLine, extractFields, hfields, hq, hs, hv, hc1, hc2]

/-- Witness for `parse_blast_result_stores_pair` on a concrete BLAST
tabular line. -/
theorem parse_blast_result_stores_pair_witness :
    pyFloatL "1e-05".data = some (Rat.divInt 1 100000) ∧
    parse_blast_result "sp|P1|X\tsp|P2|Y\t1e-05" []
      = Except.ok (dictInsert [] ("P1", "P2") (Rat.divInt 1 100000), []) :=
  ⟨by decide,
    parse_blast_result_stores_pair "sp|P1|X\tsp|P2|Y\t1e-05"
      's' "p|P1|X\tsp|P2|Y\t1e-05".data []
      "sp|P1|X".data "sp|P2|Y".data "1e-05".data []
      "sp".data "sp".data "P1".data "P2".data ["X".data] ["Y".data]
      (Rat.divInt 1 100000)
      (by decide) (by decide) (by decide) (by decide) (by decide) (by decide)
      (by decide)⟩

/-- C3: when field extraction of a line hits an `IndexError`, the handler
swallows it: the dictionary is unchanged, a warning is printed unless the
line ends with `CONVERGED!`, and processing continues with the remaining
lines; no error propagates from that line. -/
theorem parse_blast_result_recovers_from_index_error (blast_result : String)
    (c : Char) (cs : List Char) (ls : List (List Char)) (blast_dict : BlastDict)
    (hsplit : splitOnChar '\n' blast_result.data = (c :: cs) :: ls)
    (hc1 : c ≠ '#') (hc2 : c ≠ '[')
    (hx : extractFields (c :: cs) = none) :
    parse_blast_result blast_result blast_dict
      = parseLines ls (blast_dict,
          if List.isSuffixOf ("CONVERGED!".data) (c :: cs) then []
          else [warnMsg (c :: cs)]) := by
  rw [parse_blast_result, hsplit]
  simp [parseLines, parseBlastLine, hx, hc1, hc2]

/-- Witness for `parse_blast_result_recovers_from_index_error`: the line
`junk` has no second pipe-part, the warning is recorded, and the second
line is still processed. -/
theorem parse_blast_result_index_error_witness :
    extractFields "junk".data = none ∧
    parse_blast_result "junk\nsp|P1|X\tsp|P2|Y\t2.0" []
      = parseLines ["sp|P1|X\tsp|P2|Y\t2.0".data]
          ([], if List.isSuffixOf ("CONVERGED!".data) "junk".data then []
               else [warnMsg "junk".data]) :=
  ⟨by decide,
    parse_blast_result_recovers_from_index_error "junk\nsp|P1|X\tsp|P2|Y\t2.0"
      'j' "unk".data ["sp|P1|X\tsp|P2|Y\t2.0".data] []
      (by decide) (by decide) (by decide) (by decide)⟩

/-- C4: the `ValueError` of `float(e_value)` is not caught: if a line's
three fields extract but the third is no float literal, the whole call of
`parse_blast_result` fails with that error, whatever lines follow. -/
theorem parse_blast_result_float_error_propagates (blast_result : String)
    (c : Char) (cs : List Char) (ls : List (List Char)) (blast_dict : BlastDict)
    (q s f2 : List Char)
    (hsplit : splitOnChar '\n' blast_result.data = (c :: cs) :: ls)
    (hc1 : c ≠ '#') (hc2 : c ≠ '[')
    (hx : extractFields (c :: cs) = some (q, s, f2))
    (hv : pyFloatL f2 = none) :
    parse_blast_result blast_result blast_dict
      = Except.error ("could not convert string to float: " ++ String.mk f2) := by
  rw [parse_blast_result, hsplit]
  simp [parseLines, parseBlastLine, hx, hv, hc1, hc2]

/-- Witness for `parse_blast_result_float_error_propagates`: the third
field `abc` aborts the whole parse even though a well-formed line
follows. -/
theorem parse_blast_result_float_error_witness :
    pyFloatL "abc".data = none ∧
    parse_blast_result "sp|P1|X\tsp|P2|Y\tabc\nsp|P1|X\tsp|P2|Y\t2.0" []
      = Except.error ("could not convert string to float: " ++ String.mk "abc".data) :=
  ⟨by decide,
    parse_blast_result_float_error_propagates "sp|P1|X\tsp|P2|Y\tabc\nsp|P1|X\tsp|P2|Y\t2.0"
      's' "p|P1|X\tsp|P2|Y\tabc".data ["sp|P1|X\tsp|P2|Y\t2.0".data] []
      "P1".data "P2".data "abc".data
      (by decide) (by decide) (by decide) (by decide) (by decide)⟩

/-- Reading `getD` at an in-range index. -/
lemma getD_eq_get (l : List ℚ) (i : ℕ) (h : i < l.length) :
    l.getD i 0 = l.get ⟨i, h⟩ := by
  simp [List.getD_eq_getElem?_getD, List.getElem?_eq_getElem h, List.get_eq_getElem]

/-- Membership in `nonzeroIndices`. -/
lemma mem_nonzeroIndices {l : List ℚ} {i : ℕ} :
    i ∈ nonzeroIndices l ↔ i < l.length ∧ l.getD i 0 ≠ 0 := by
  simp [nonzeroIndices, List.mem_filter, List.mem_range]

/-- The non-zero indices are listed in strictly increasing order. -/
lemma nonzeroIndices_pairwise (l : List ℚ) :
    (nonzeroIndices l).Pairwise (· < ·) :=
  (List.pairwise_lt_range l.length).filter _

/-- In a list sorted ascending, the entry at the first non-zero index is
the least non-zero element. -/
lemma head_nonzeroIndices_of_min (l : List ℚ) (hsort : l.Sorted (· ≤ ·))
    (m : ℚ) (hmem : m ∈ l) (hm0 : m ≠ 0)
    (hmin : ∀ x ∈ l, x ≠ 0 → m ≤ x) :
    ∃ i t, nonzeroIndices l = i :: t ∧ l.getD i 0 = m := by
  obtain ⟨⟨j, hjlt⟩, hj⟩ := List.mem_iff_get.mp hmem
  have hjD : l.getD j 0 = m := by rw [getD_eq_get l j hjlt]; exact hj
  have hjmem : j ∈ nonzeroIndices l :=
    mem_nonzeroIndices.mpr ⟨hjlt, by rw [hjD]; exact hm0⟩
  cases hnz : nonzeroIndices l with
  | nil => rw [hnz] at hjmem; cases hjmem
  | cons i t =>
    have himem : i ∈ nonzeroIndices l := by rw [hnz]; exact List.mem_cons_self i t
    obtain ⟨hilt, hi0⟩ := mem_nonzeroIndices.mp himem
    have hij : i ≤ j := by
      rw [hnz] at hjmem
      rcases List.mem_cons.mp hjmem with h | h
      · exact le_of_eq h.symm
      · exact le_of_lt (List.rel_of_pairwise_cons (hnz ▸ nonzeroIndices_pairwise l) h)
    have h1 : l.get ⟨i, hilt⟩ ≤ m := by
      rcases lt_or_eq_of_le hij with hlt | heq
      · have := hsort.rel_get_of_lt (a := ⟨i, hilt⟩) (b := ⟨j, hjlt⟩) hlt
        rw [hj] at this
        exact this
      · subst heq
        exact le_of_eq hj
    have h2 : m ≤ l.get ⟨i, hilt⟩ := by
      refine hmin _ (List.get_mem l i hilt) ?_
      rw [← getD_eq_get l i hilt]
      exact hi0
    exact ⟨i, t, rfl, by rw [getD_eq_get l i hilt]; exact le_antisymm h1 h2⟩

/-- `pseudo_count` is the least non-zero stored e-value divided by 1000. -/
lemma pseudoCount_eq_min (d : BlastDict) (m : ℚ)
    (hmem : m ∈ dictValues d) (hm0 : m ≠ 0)
    (hmin : ∀ x ∈ dictValues d, x ≠ 0 → m ≤ x) :
    pseudoCount d = some (pyDiv1000 m) := by
  have hperm : (sortedEVals d).Perm (dictValues d) := List.perm_insertionSort _ _
  have hsort : (sortedEVals d).Sorted (· ≤ ·) := List.sorted_insertionSort _ _
  obtain ⟨i, t, hnz, hiD⟩ := head_nonzeroIndices_of_min (sortedEVals d) hsort m
    (hperm.mem_iff.mpr hmem) hm0
    (fun x hx hx0 => hmin x (hperm.mem_iff.mp hx) hx0)
  rw [pseudoCount, hnz]
  simp only [List.head?_cons, Option.map_some', Option.some.injEq]
  rw [hiD]

/-- C5 (against the intended `math.log10` of lines 126-127, which as
written are a Python syntax error): the data handed to `pylab.hist` is the
list of stored e-values, each shifted by the pseudocount — the smallest
non-zero stored e-value divided by 1000 — and transformed by the base-10
logarithm. -/
theorem plot_histogram_log10_pseudocount (d : BlastDict) (ev m : ℚ)
    (hmem : m ∈ dictValues d) (hm0 : m ≠ 0)
    (hmin : ∀ x ∈ dictValues d, x ≠ 0 → m ≤ x) :
    (plot_evalue_distribution d ev).map
        (fun r => r.1.map (fun x : ℚ => Real.logb 10 ((x : ℝ))))
      = some ((dictValues d).map
          (fun x : ℚ => Real.logb 10 ((x : ℝ) + (m : ℝ) / 1000))) := by
  rw [plot_evalue_distribution, pseudoCount_eq_min d m hmem hm0 hmin]
  simp only [Option.map_some', List.map_map, Option.some.injEq]
  refine List.map_congr_left (fun x hx => ?_)
  simp only [Function.comp]
  rw [pyAdd_eq, pyDiv1000_eq]
  push_cast
  rfl

/-- Witness for `plot_histogram_log10_pseudocount` on a one-entry
dictionary. -/
theorem plot_histogram_log10_witness :
    Rat.divInt 1 100 ∈ dictValues [(("A", "B"), Rat.divInt 1 100)] ∧
    (plot_evalue_distribution [(("A", "B"), Rat.divInt 1 100)] 100000).map
        (fun r => r.1.map (fun x : ℚ => Real.logb 10 ((x : ℝ))))
      = some ((dictValues [(("A", "B"), Rat.divInt 1 100)]).map
          (fun x : ℚ => Real.logb 10 ((x : ℝ) + ((Rat.divInt 1 100 : ℚ) : ℝ) / 1000))) :=
  ⟨by decide,
    plot_histogram_log10_pseudocount [(("A", "B"), Rat.divInt 1 100)] 100000
      (Rat.divInt 1 100) (by decide) (by decide) (by decide)⟩

/-- C6: whenever the pseudocount computation succeeds (so the counting
loop is reached at all), the threshold count is the number of stored
e-values strictly below the `evalue` parameter; and calling the function
without a threshold is calling it with 100000. -/
theorem plot_threshold_count (d : BlastDict) (ev pc : ℚ)
    (h : pseudoCount d = some pc) :
    (plot_evalue_distribution d ev).map (fun r => r.2)
        = some (List.countP (fun x => decide (x < ev)) (dictValues d)) ∧
    plot_evalue_distribution d = plot_evalue_distribution d 100000 := by
  constructor
  · rw [plot_evalue_distribution, h]
    simp only [Option.map_some', Option.some.injEq]
    exact (List.perm_insertionSort _ _).countP_eq _
  · rfl

/-- Witness for `plot_threshold_count` on a two-entry dictionary with
threshold 5: exactly one stored e-value lies below it. -/
theorem plot_threshold_count_witness :
    pseudoCount [(("A", "B"), Rat.divInt 1 100), (("B", "A"), Rat.divInt 7 1)]
        = some (Rat.divInt 1 100000) ∧
    ((plot_evalue_distribution [(("A", "B"), Rat.divInt 1 100), (("B", "A"), Rat.divInt 7 1)] 5).map
          (fun r => r.2)
        = some (List.countP (fun x => decide (x < 5))
            (dictValues [(("A", "B"), Rat.divInt 1 100), (("B", "A"), Rat.divInt 7 1)])) ∧
      plot_evalue_distribution [(("A", "B"), Rat.divInt 1 100), (("B", "A"), Rat.divInt 7 1)]
        = plot_evalue_distribution [(("A", "B"), Rat.divInt 1 100), (("B", "A"), Rat.divInt 7 1)] 100000) :=
  ⟨by decide,
    plot_threshold_count [(("A", "B"), Rat.divInt 1 100), (("B", "A"), Rat.divInt 7 1)] 5
      (Rat.divInt 1 100000) (by decide)⟩

/-- Trace accumulated by the loop of `main`: with a string-valued
`evalue`, every iteration that completes contributes exactly the one
command its `blast` call started, in input order. -/
lemma mainLoop_trace (oracle : String → String) (db qf out : String)
    (psi : Bool) (evs : String) (lines : List String) :
    ∀ (st res : MainState),
      mainLoop oracle db qf out psi (PyVal.str evs) lines st = Except.ok res →
      res.trace = st.trace ++ lines.map
        (fun l => blastCmdStr db (cleanUniprot l ++ ".fasta") qf psi evs) := by
  induction lines with
  | nil =>
    intro st res h
    simp only [mainLoop, Except.ok.injEq] at h
    rw [← h]
    simp
  | cons line rest ih =>
    intro st res h
    simp only [mainLoop, blast] at h
    rcases hp : parse_blast_result
        (oracle (blastCmdStr db (cleanUniprot line ++ ".fasta") qf psi evs))
        st.dict with e | st2
    · rw [hp] at h
      cases h
    · rw [hp] at h
      have := ih _ _ h
      rw [this]
      simp [List.append_assoc]

/-- C7: on a run of `main` that returns (string-valued `evalue`, as a
parsed command line supplies), the subprocess invocations are exactly one
`blast` command per line of the identifier file, in file order; the trace
is a list, so the invocations are sequential, each command issued only
after the previous one's output was read and parsed. -/
theorem main_one_blast_per_identifier (oracle : String → String)
    (uniprot_lines : List String) (query_folder db : String) (psiblast : Bool)
    (output_filename evs : String)
    (res : MainState × List String × (List ℚ × ℕ))
    (h : mainRun oracle uniprot_lines query_folder db psiblast output_filename
        (PyVal.str evs) = Except.ok res) :
    res.1.trace = uniprot_lines.map
      (fun l => blastCmdStr db (cleanUniprot l ++ ".fasta") query_folder psiblast evs) := by
  unfold mainRun at h
  rcases hml : mainLoop oracle db query_folder output_filename psiblast
      (PyVal.str evs) uniprot_lines ⟨[], [], [], []⟩ with e | st
  · rw [hml] at h
    cases h
  · rw [hml] at h
    dsimp only at h
    rcases hpl : plot_evalue_distribution st.dict with _ | pr
    · rw [hpl] at h
      cases h
    · rw [hpl] at h
      simp only [Except.ok.injEq] at h
      rw [← h]
      have := mainLoop_trace oracle db query_folder output_filename psiblast evs
        uniprot_lines _ _ hml
      simpa using this

/-- Witness for `main_one_blast_per_identifier`: a one-identifier file,
an oracle answering one alignment line; the run succeeds and its trace is
the single blastp command. -/
theorem main_one_blast_witness :
    mainRun (fun _ => "sp|A|q\tsp|B|s\t2.0") ["P1"] "./queries/" "mydb" false
        "out.txt" (PyVal.str "10")
      = Except.ok
          (⟨["blastp -query=./queries/P1.fasta -db=mydb -outfmt=\"6 qacc sacc evalue\" -evalue=10"],
            ["P1"], [(("A", "B"), Rat.divInt 2 1)], []⟩,
           [], ([Rat.divInt 1001 500], 1)) ∧
    (⟨(["blastp -query=./queries/P1.fasta -db=mydb -outfmt=\"6 qacc sacc evalue\" -evalue=10"] :
          List String),
        ["P1"], ([(("A", "B"), Rat.divInt 2 1)] : BlastDict), ([] : List String)⟩ :
        MainState).trace
      = (["P1"] : List String).map
          (fun l => blastCmdStr "mydb" (cleanUniprot l ++ ".fasta") "./queries/" false "10") :=
  ⟨by decide,
    main_one_blast_per_identifier (fun _ => "sp|A|q\tsp|B|s\t2.0") ["P1"] "./queries/"
      "mydb" false "out.txt" "10"
      (⟨["blastp -query=./queries/P1.fasta -db=mydb -outfmt=\"6 qacc sacc evalue\" -evalue=10"],
        ["P1"], [(("A", "B"), Rat.divInt 2 1)], []⟩,
       [], ([Rat.divInt 1001 500], 1))
      (by decide)⟩
